import Mathlib

/-!
Shallow embedding of `src/lib/DFPlayer.py` (CircuitPython driver for the
DFPlayer-Mini audio module).

Bytes are modelled as `Nat`; the UART transport is a record holding the
bytes waiting to be read (`rx`), the log of frames written (`tx`) and the
log of settle delays slept, in milliseconds (`sleeps`).  Python's
`time.sleep` arguments (seconds as exact decimals 0.200, 1.000, 0.500,
0.100) are represented in whole milliseconds.

The two volume conversions in the source use Python float division
(`int(percent * 30 / 100)` and `int(r / 30 * 100)`).  IEEE-754 binary64
rounding of these positive quotients is modelled exactly with integer
arithmetic (`fround` below): a correctly rounded double of a positive
rational n/d is the nearest (ties-to-even) multiple of 2^(e-52) where
e = floor (log2 (n/d)); all values arising here are normal and far from
overflow, so this characterisation is exact.
-/

set_option maxRecDepth 100000

namespace DFPlayerModel

/-- Round `a / b` (with `b > 0`) to the nearest integer, ties to even. -/
def rnear (a b : Nat) : Nat :=
  let q := a / b
  let r := a % b
  if 2 * r < b then q
  else if b < 2 * r then q + 1
  else if q % 2 = 0 then q else q + 1

/-- Structural (fuel-indexed) binary logarithm: with fuel at least the
bit length of `n` this is the floor of `log2 n` for `n ≥ 1`. -/
def nlog2Aux : Nat → Nat → Nat
  | 0, _ => 0
  | f + 1, n => if 2 ≤ n then nlog2Aux f (n / 2) + 1 else 0

/-- Floor of `log2 n` for `n ≥ 1`, for numbers below `2 ^ 200`. -/
def nlog2 (n : Nat) : Nat := nlog2Aux 200 n

/-- Floor of `log2 (n / d)` for a positive rational `n / d` with
`n, d > 0` and `n / d > 2 ^ (-80)`; computed by scaling into `Nat`. -/
def qflog2 (n d : Nat) : Int :=
  (nlog2 (n * 2 ^ 80 / d) : Int) - 80

/-- The IEEE-754 binary64 value nearest to `n / d` (`n, d > 0`, value in
the normal range with exponent at most 52), returned as a pair `(m, t)`
denoting the exact dyadic rational `m / 2 ^ t`. -/
def fround (n d : Nat) : Nat × Nat :=
  let t : Nat := (52 - qflog2 n d).toNat
  (rnear (n * 2 ^ t) d, t)

/-- Python `int(r / 30 * 100)` for a nonnegative integer `r`: two
correctly rounded double operations followed by truncation toward zero. -/
def pyVolPct (r : Nat) : Nat :=
  if r = 0 then 0
  else
    let p := fround r 30
    let q := fround (p.1 * 100) (2 ^ p.2)
    q.1 / 2 ^ q.2

/-- Python `int(percent * 30 / 100)` for a nonnegative integer `percent`:
the product is an exact integer, then one correctly rounded double
division followed by truncation toward zero. -/
def pyVolDev (percent : Nat) : Nat :=
  if percent = 0 then 0
  else
    let q := fround (percent * 30) 100
    q.1 / 2 ^ q.2

/-- The UART transport: bytes waiting to be read, the log of frames
written, and the log of settle delays (milliseconds) slept so far. -/
structure Uart where
  rx : List Nat
  tx : List (List Nat)
  sleeps : List Nat
deriving DecidableEq, Repr

/-- The driver state: the remembered media source (`self._media`) and the
construction-time default latency (`self._latency`), in milliseconds. -/
structure DFPlayer where
  media : Nat
  latencyMs : Nat
deriving DecidableEq, Repr

/-- The 8-byte command frame built in `_write_data`:
`7E FF 06 cmd 00 dataH dataL EF`. -/
def writeFrame (cmd dataL dataH : Nat) : List Nat :=
  [0x7E, 0xFF, 0x06, cmd, 0x00, dataH, dataL, 0xEF]

/-- The settle delay (milliseconds) taken after the transport write in
`_write_data`, as a function of the command byte. -/
def settleDelayMs (latencyMs cmd : Nat) : Nat :=
  if cmd = 0x09 then 200
  else if cmd = 0x0C then 1000
  else if cmd = 0x47 ∨ cmd = 0x48 ∨ cmd = 0x49 ∨ cmd = 0x4E then 500
  else if cmd = 0x03 ∨ cmd = 0x0D ∨ cmd = 0x0F ∨ cmd = 0x12 ∨ cmd = 0x13 ∨ cmd = 0x16 then 0
  else latencyMs

/-- `_write_data`: write the 8-byte frame, then sleep for the settle
delay of the command. -/
def writeData (st : DFPlayer) (u : Uart) (cmd dataL dataH : Nat) : Uart :=
  { u with
    tx := u.tx ++ [writeFrame cmd dataL dataH]
    sleeps := u.sleeps ++ [settleDelayMs st.latencyMs cmd] }

/-- The validation/parsing part of `_read_data` applied to the bytes
returned by `uart.read(10)`: reject unless the buffer is exactly 10 bytes
with the four marker bytes in place, else return the command echo and the
big-endian 16-bit data word from positions 5 and 6. -/
def decode10 (buf : List Nat) : Option (Nat × Nat) :=
  if buf.length ≠ 10 then none
  else if buf.getD 0 0 ≠ 0x7E then none
  else if buf.getD 1 0 ≠ 0xFF then none
  else if buf.getD 2 0 ≠ 0x06 then none
  else if buf.getD 9 0 ≠ 0xEF then none
  else some (buf.getD 3 0, buf.getD 5 0 * 256 + buf.getD 6 0)

/-- `_read_data`: return `none` immediately when no bytes are waiting;
otherwise consume (up to) 10 bytes and decode them. -/
def readData (u : Uart) : Option (Nat × Nat) × Uart :=
  if u.rx.length = 0 then (none, u)
  else (decode10 (u.rx.take 10), { u with rx := u.rx.drop 10 })

/-- The loop of `_read_response`, with explicit fuel.  Each recursive call
consumes at least one byte of `rx`, so any fuel of at least `u.rx.length`
computes the loop's true result. -/
def readResponseGo (fuel : Nat) (u : Uart) (res : Option (Nat × Nat)) :
    Option (Nat × Nat) × Uart :=
  match fuel with
  | 0 => (res, u)
  | f + 1 =>
    let p := readData u
    match p.1 with
    | none => (res, p.2)
    | some r => readResponseGo f p.2 (some r)

/-- `_read_response`: poll `_read_data` until it returns `none`, keeping
the most recently decoded frame. -/
def readResponse (u : Uart) : Option (Nat × Nat) × Uart :=
  readResponseGo u.rx.length u none

/-- The value `_read_response` would return given the waiting bytes
(writes do not affect the receive direction). -/
def drainLatest (rx : List Nat) : Option (Nat × Nat) :=
  (readResponseGo rx.length ⟨rx, [], []⟩ none).1

/-- `set_media`: remember the media source and send command 0x09. -/
def set_media (st : DFPlayer) (u : Uart) (media : Nat) : DFPlayer × Uart :=
  ({ st with media := media }, writeData st u 0x09 media 0)

/-- `set_volume`: clamp the percent to [0, 100], scale to the 0–30 device
range with Python float truncation, and send command 0x06. -/
def set_volume (st : DFPlayer) (u : Uart) (percent : Int) : Uart :=
  let p := max 0 (min 100 percent)
  writeData st u 0x06 (pyVolDev p.toNat) 0

/-- `get_volume`: send query 0x43, drain responses, and rescale the raw
reply to a percent when the echoed command matches; otherwise 0. -/
def get_volume (st : DFPlayer) (u : Uart) : Nat × Uart :=
  let u1 := writeData st u 0x43 0 0
  let p := readResponse u1
  (match p.1 with
   | some cd => if cd.1 = 0x43 then pyVolPct cd.2 else 0
   | none => 0, p.2)

/-- `set_eq`: reset an out-of-range preset to 0 and send command 0x07. -/
def set_eq (st : DFPlayer) (u : Uart) (eqp : Int) : Uart :=
  let e := if eqp < 0 ∨ 5 < eqp then 0 else eqp.toNat
  writeData st u 0x07 e 0

/-- `get_eq`: send query 0x44; return the echoed data or 0. -/
def get_eq (st : DFPlayer) (u : Uart) : Nat × Uart :=
  let u1 := writeData st u 0x44 0 0
  let p := readResponse u1
  (match p.1 with
   | some cd => if cd.1 = 0x44 then cd.2 else 0
   | none => 0, p.2)

/-- `get_status`: send query 0x42; return the echoed data or `none`. -/
def get_status (st : DFPlayer) (u : Uart) : Option Nat × Uart :=
  let u1 := writeData st u 0x42 0 0
  let p := readResponse u1
  (match p.1 with
   | some cd => if cd.1 = 0x42 then some cd.2 else none
   | none => none, p.2)

/-- `get_mode`: send query 0x45; return the echoed data or `none`. -/
def get_mode (st : DFPlayer) (u : Uart) : Option Nat × Uart :=
  let u1 := writeData st u 0x45 0 0
  let p := readResponse u1
  (match p.1 with
   | some cd => if cd.1 = 0x45 then some cd.2 else none
   | none => none, p.2)

/-- `get_version`: send query 0x46; return the echoed data or `none`. -/
def get_version (st : DFPlayer) (u : Uart) : Option Nat × Uart :=
  let u1 := writeData st u 0x46 0 0
  let p := readResponse u1
  (match p.1 with
   | some cd => if cd.1 = 0x46 then some cd.2 else none
   | none => none, p.2)

/-- `current_file`: send query 0x4C; return the echoed data or `none`. -/
def current_file (st : DFPlayer) (u : Uart) : Option Nat × Uart :=
  let u1 := writeData st u 0x4C 0 0
  let p := readResponse u1
  (match p.1 with
   | some cd => if cd.1 = 0x4C then some cd.2 else none
   | none => none, p.2)

/-- `play_advert`: reject a track outside [1, 9999] before any transport
write; otherwise send command 0x13 with the track split as
`track % 256` (low) and `track // 256` (high). -/
def play_advert (st : DFPlayer) (u : Uart) (track : Int) : Except String Uart :=
  if 1 ≤ track ∧ track ≤ 9999 then
    Except.ok (writeData st u 0x13 (Int.emod track 256).toNat (Int.ediv track 256).toNat)
  else Except.error "Track must be between 1 and 9999"

/-- `num_files`: with a folder, query 0x4E for that folder; without one,
resolve the media source (`media or self._media` — a falsy 0 argument
also falls back to the stored source), map it to its dedicated query
command (USB-disk 1 ↦ 0x47, SD 2 ↦ 0x48, flash 5 ↦ 0x49), and return 0
immediately with no write when there is no such command. -/
def num_files (st : DFPlayer) (u : Uart) (folder media : Option Nat) : Nat × Uart :=
  match folder with
  | some f =>
    let u1 := writeData st u 0x4E f 0
    let p := readResponse u1
    (match p.1 with
     | some cd => if cd.1 = 0x4E then cd.2 else 0
     | none => 0, p.2)
  | none =>
    let m := match media with
             | none => st.media
             | some mv => if mv = 0 then st.media else mv
    let cmdo : Option Nat :=
      if m = 1 then some 0x47
      else if m = 2 then some 0x48
      else if m = 5 then some 0x49
      else none
    match cmdo with
    | none => (0, u)
    | some c =>
      let u1 := writeData st u c 0 0
      let p := readResponse u1
      (match p.1 with
       | some cd => if cd.1 = c then cd.2 else 0
       | none => 0, p.2)

/-- `__init__`: store the latency, set the media source, query the status
and fail when the result is falsy (`None` or `0`), else apply the initial
volume and EQ.  The transport is threaded out on both paths, since the
Python writes happen before the exception is raised. -/
def initDriver (media : Nat) (volume_pct eqp : Int) (latencyMs : Nat) (u : Uart) :
    Except String DFPlayer × Uart :=
  let st0 : DFPlayer := { media := 0, latencyMs := latencyMs }
  let p1 := set_media st0 u media
  let q := get_status p1.1 p1.2
  match q.1 with
  | none => (Except.error "DFPlayer could not be initialized.", q.2)
  | some v =>
    if v = 0 then (Except.error "DFPlayer could not be initialized.", q.2)
    else
      let u3 := set_volume p1.1 q.2 volume_pct
      let u4 := set_eq p1.1 u3 eqp
      (Except.ok p1.1, u4)

/-- The synthetic 10-byte response corresponding to an 8-byte command
frame: same markers, command and data bytes, with two checksum bytes
spliced in before the stop byte. -/
def responseBytesFrom (frame : List Nat) (ck1 ck2 : Nat) : List Nat :=
  frame.take 7 ++ [ck1, ck2, 0xEF]

/-! ### Lemmas about the response-drain loop -/

/-- The loop result does not depend on the fuel, as long as the fuel is at
least the number of waiting bytes. -/
theorem readResponseGo_fuel : ∀ (f g : Nat) (u : Uart) (res : Option (Nat × Nat)),
    u.rx.length ≤ f → u.rx.length ≤ g →
    readResponseGo f u res = readResponseGo g u res := by
  intro f
  induction f with
  | zero =>
    intro g u res hf hg
    have hrx : u.rx = [] := List.length_eq_zero.mp (Nat.le_zero.mp hf)
    cases g <;> simp [readResponseGo, readData, hrx]
  | succ f' ih =>
    intro g u res hf hg
    cases g with
    | zero =>
      have hrx : u.rx = [] := List.length_eq_zero.mp (Nat.le_zero.mp hg)
      simp [readResponseGo, readData, hrx]
    | succ g' =>
      by_cases h0 : u.rx.length = 0
      · simp [readResponseGo, readData, h0]
      · have hdat : readData u = (decode10 (u.rx.take 10), { u with rx := u.rx.drop 10 }) := by
          simp [readData, h0]
        cases hdec : decode10 (u.rx.take 10) with
        | none => simp [readResponseGo, hdat, hdec]
        | some r =>
          have hl1 : ({ u with rx := u.rx.drop 10 } : Uart).rx.length ≤ f' := by
            simp only [List.length_drop]; omega
          have hl2 : ({ u with rx := u.rx.drop 10 } : Uart).rx.length ≤ g' := by
            simp only [List.length_drop]; omega
          simp only [readResponseGo, hdat, hdec]
          exact ih g' _ (some r) hl1 hl2

/-- Absorption fact for `Option.or` used below. -/
theorem or_some_absorb (x : Option (Nat × Nat)) (r : Nat × Nat) (res : Option (Nat × Nat)) :
    (x.or (some r)).or res = x.or (some r) := by
  cases x <;> rfl

/-- The accumulator of the drain loop only surfaces when the rest of the
drain produces nothing: the loop returns the accumulator overridden by
any later result. -/
theorem readResponseGo_acc : ∀ (f : Nat) (u : Uart) (res : Option (Nat × Nat)),
    readResponseGo f u res =
      ((readResponseGo f u none).1.or res, (readResponseGo f u none).2) := by
  intro f
  induction f with
  | zero => intro u res; rfl
  | succ f' ih =>
    intro u res
    by_cases h0 : u.rx.length = 0
    · simp [readResponseGo, readData, h0]
    · have hdat : readData u = (decode10 (u.rx.take 10), { u with rx := u.rx.drop 10 }) := by
        simp [readData, h0]
      cases hdec : decode10 (u.rx.take 10) with
      | none => simp [readResponseGo, hdat, hdec]
      | some r =>
        simp only [readResponseGo, hdat, hdec]
        rw [ih _ (some r)]
        rw [or_some_absorb]

/-- The drain loop reads only the receive buffer: the write logs pass
through untouched and the result is a function of `rx` alone. -/
theorem readResponseGo_split : ∀ (f : Nat) (u : Uart) (res : Option (Nat × Nat)),
    readResponseGo f u res =
      ((readResponseGo f (⟨u.rx, [], []⟩ : Uart) res).1,
        ⟨(readResponseGo f (⟨u.rx, [], []⟩ : Uart) res).2.rx, u.tx, u.sleeps⟩) := by
  intro f
  induction f with
  | zero => intro u res; rfl
  | succ f' ih =>
    intro u res
    by_cases h0 : u.rx.length = 0
    · simp [readResponseGo, readData, h0]
    · have hdat : readData u = (decode10 (u.rx.take 10), { u with rx := u.rx.drop 10 }) := by
        simp [readData, h0]
      have hdat' : readData (⟨u.rx, [], []⟩ : Uart) =
          (decode10 (u.rx.take 10), (⟨u.rx.drop 10, [], []⟩ : Uart)) := by
        simp [readData, h0]
      cases hdec : decode10 (u.rx.take 10) with
      | none => simp [readResponseGo, hdat, hdat', hdec]
      | some r =>
        simp only [readResponseGo, hdat, hdat', hdec]
        exact ih (⟨u.rx.drop 10, u.tx, u.sleeps⟩ : Uart) (some r)

/-- `_read_response` leaves the transmit log unchanged. -/
theorem readResponse_tx (u : Uart) : (readResponse u).2.tx = u.tx := by
  rw [readResponse, readResponseGo_split]

/-- The value `_read_response` returns is `drainLatest` of the waiting
bytes. -/
theorem readResponse_fst (u : Uart) : (readResponse u).1 = drainLatest u.rx := by
  rw [readResponse, readResponseGo_split, drainLatest]

/-! ### Projection lemmas for the query methods -/

theorem get_status_fst (st : DFPlayer) (u : Uart) :
    (get_status st u).1 =
      (match drainLatest u.rx with
       | some cd => if cd.1 = 0x42 then some cd.2 else none
       | none => none) := by
  show (match (readResponse (writeData st u 0x42 0 0)).1 with
        | some cd => if cd.1 = 0x42 then some cd.2 else none
        | none => none) = _
  rw [readResponse_fst]
  rfl

theorem get_mode_fst (st : DFPlayer) (u : Uart) :
    (get_mode st u).1 =
      (match drainLatest u.rx with
       | some cd => if cd.1 = 0x45 then some cd.2 else none
       | none => none) := by
  show (match (readResponse (writeData st u 0x45 0 0)).1 with
        | some cd => if cd.1 = 0x45 then some cd.2 else none
        | none => none) = _
  rw [readResponse_fst]
  rfl

theorem get_version_fst (st : DFPlayer) (u : Uart) :
    (get_version st u).1 =
      (match drainLatest u.rx with
       | some cd => if cd.1 = 0x46 then some cd.2 else none
       | none => none) := by
  show (match (readResponse (writeData st u 0x46 0 0)).1 with
        | some cd => if cd.1 = 0x46 then some cd.2 else none
        | none => none) = _
  rw [readResponse_fst]
  rfl

theorem current_file_fst (st : DFPlayer) (u : Uart) :
    (current_file st u).1 =
      (match drainLatest u.rx with
       | some cd => if cd.1 = 0x4C then some cd.2 else none
       | none => none) := by
  show (match (readResponse (writeData st u 0x4C 0 0)).1 with
        | some cd => if cd.1 = 0x4C then some cd.2 else none
        | none => none) = _
  rw [readResponse_fst]
  rfl

theorem get_volume_fst (st : DFPlayer) (u : Uart) :
    (get_volume st u).1 =
      (match drainLatest u.rx with
       | some cd => if cd.1 = 0x43 then pyVolPct cd.2 else 0
       | none => 0) := by
  show (match (readResponse (writeData st u 0x43 0 0)).1 with
        | some cd => if cd.1 = 0x43 then pyVolPct cd.2 else 0
        | none => 0) = _
  rw [readResponse_fst]
  rfl

theorem get_eq_fst (st : DFPlayer) (u : Uart) :
    (get_eq st u).1 =
      (match drainLatest u.rx with
       | some cd => if cd.1 = 0x44 then cd.2 else 0
       | none => 0) := by
  show (match (readResponse (writeData st u 0x44 0 0)).1 with
        | some cd => if cd.1 = 0x44 then cd.2 else 0
        | none => 0) = _
  rw [readResponse_fst]
  rfl

theorem num_files_folder_fst (st : DFPlayer) (u : Uart) (f : Nat) :
    (num_files st u (some f) none).1 =
      (match drainLatest u.rx with
       | some cd => if cd.1 = 0x4E then cd.2 else 0
       | none => 0) := by
  show (match (readResponse (writeData st u 0x4E f 0)).1 with
        | some cd => if cd.1 = 0x4E then cd.2 else 0
        | none => 0) = _
  rw [readResponse_fst]
  rfl

theorem num_files_usb_fst (st : DFPlayer) (u : Uart) :
    (num_files st u none (some 1)).1 =
      (match drainLatest u.rx with
       | some cd => if cd.1 = 0x47 then cd.2 else 0
       | none => 0) := by
  show (match (readResponse (writeData st u 0x47 0 0)).1 with
        | some cd => if cd.1 = 0x47 then cd.2 else 0
        | none => 0) = _
  rw [readResponse_fst]
  rfl

theorem num_files_sd_fst (st : DFPlayer) (u : Uart) :
    (num_files st u none (some 2)).1 =
      (match drainLatest u.rx with
       | some cd => if cd.1 = 0x48 then cd.2 else 0
       | none => 0) := by
  show (match (readResponse (writeData st u 0x48 0 0)).1 with
        | some cd => if cd.1 = 0x48 then cd.2 else 0
        | none => 0) = _
  rw [readResponse_fst]
  rfl

theorem num_files_flash_fst (st : DFPlayer) (u : Uart) :
    (num_files st u none (some 5)).1 =
      (match drainLatest u.rx with
       | some cd => if cd.1 = 0x49 then cd.2 else 0
       | none => 0) := by
  show (match (readResponse (writeData st u 0x49 0 0)).1 with
        | some cd => if cd.1 = 0x49 then cd.2 else 0
        | none => 0) = _
  rw [readResponse_fst]
  rfl

theorem get_status_tx (st : DFPlayer) (u : Uart) :
    (get_status st u).2.tx = u.tx ++ [writeFrame 0x42 0 0] := by
  show (readResponse (writeData st u 0x42 0 0)).2.tx = _
  rw [readResponse_tx]
  rfl

/-- Setting a list entry at one index leaves `getD` at a different index
unchanged. -/
theorem getD_set_of_ne {l : List Nat} {i j : Nat} (h : i ≠ j) (v : Nat) :
    (l.set i v).getD j 0 = l.getD j 0 := by
  simp [List.getD, List.getElem?_set_ne h]

/-! ### Claim theorems -/

/-- C1 (counterexample): an invalid 10-byte chunk followed by a valid
frame does not yield the later valid frame — `_read_response` returns
nothing, because `_read_data`'s `None` on the invalid chunk ends the
polling loop at once.  The second chunk decodes to `(0x42, 512)`, yet the
poller returns `none`. -/
theorem c1_read_response_counterexample :
    decode10 [0x7E, 0xFF, 0x06, 0x42, 0x00, 0x02, 0x00, 0x00, 0x00, 0xEF] = some (0x42, 512) ∧
    (readResponse ⟨[0, 0, 0, 0, 0, 0, 0, 0, 0, 0,
        0x7E, 0xFF, 0x06, 0x42, 0x00, 0x02, 0x00, 0x00, 0x00, 0xEF], [], []⟩).1 = none := by
  decide

/-- C1 (amended): `_read_response` returns immediately with nothing when
zero bytes are waiting; while the leading 10-byte chunks decode to valid
frames it keeps draining and returns the last frame of that run (a later
result overrides an earlier one); but the first chunk that fails to
decode ends the polling at once with whatever was accumulated, so frames
after an invalid chunk are never reached. -/
theorem c1_read_response_behavior (u : Uart) :
    (u.rx = [] → readResponse u = (none, u)) ∧
    (∀ r, u.rx ≠ [] → decode10 (u.rx.take 10) = some r →
      (readResponse u).1 =
        ((readResponse { u with rx := u.rx.drop 10 }).1).or (some r)) ∧
    (u.rx ≠ [] → decode10 (u.rx.take 10) = none →
      readResponse u = (none, { u with rx := u.rx.drop 10 })) := by
  refine ⟨?_, ?_, ?_⟩
  · intro h
    simp [readResponse, readResponseGo, h]
  · intro r hne hdec
    have h0 : u.rx.length ≠ 0 := by
      simpa using fun h => hne (List.length_eq_zero.mp h)
    obtain ⟨n, hn⟩ : ∃ n, u.rx.length = n + 1 := ⟨u.rx.length - 1, by omega⟩
    have hdat : readData u = (some r, { u with rx := u.rx.drop 10 }) := by
      simp [readData, h0, hdec]
    have step : readResponse u = readResponseGo n { u with rx := u.rx.drop 10 } (some r) := by
      rw [readResponse, hn]
      simp [readResponseGo, hdat]
    rw [step, readResponseGo_acc n _ (some r)]
    have hfu : readResponseGo n ({ u with rx := u.rx.drop 10 } : Uart) none =
        readResponse { u with rx := u.rx.drop 10 } := by
      rw [readResponse]
      exact readResponseGo_fuel n _ _ none (by simp only [List.length_drop]; omega) (le_refl _)
    rw [hfu]
  · intro hne hdec
    have h0 : u.rx.length ≠ 0 := by
      simpa using fun h => hne (List.length_eq_zero.mp h)
    obtain ⟨n, hn⟩ : ∃ n, u.rx.length = n + 1 := ⟨u.rx.length - 1, by omega⟩
    rw [readResponse, hn]
    simp [readResponseGo, readData, h0, hdec]

/-- C1 (witness): the invalid-chunk clause of the drain behaviour at a
concrete transport holding ten zero bytes. -/
theorem c1_read_response_witness :
    readResponse ⟨[0, 0, 0, 0, 0, 0, 0, 0, 0, 0], [], []⟩ = (none, ⟨[], [], []⟩) := by
  exact (c1_read_response_behavior ⟨[0, 0, 0, 0, 0, 0, 0, 0, 0, 0], [], []⟩).2.2
    (by decide) (by decide)

/-- C2 (counterexample): advert-stop (command 0x15) does not get a 0 ms
settle delay — with the default 100 ms construction latency its delay is
100 ms. -/
theorem c2_settle_delay_counterexample :
    settleDelayMs 100 0x15 = 100 ∧ settleDelayMs 100 0x15 ≠ 0 := by
  decide

/-- C2 (amended): the settle delay is exactly 200 ms for set-media (0x09),
1000 ms for reset (0x0C), 500 ms for the file-count queries (0x47, 0x48,
0x49, 0x4E), 0 ms for the play commands (0x03, 0x0D, 0x0F, 0x12, 0x13)
and stop (0x16), and the construction-time default latency for advert-stop
(0x15) and every other command. -/
theorem c2_settle_delay_policy (latency : Nat) :
    settleDelayMs latency 0x09 = 200 ∧
    settleDelayMs latency 0x0C = 1000 ∧
    settleDelayMs latency 0x47 = 500 ∧
    settleDelayMs latency 0x48 = 500 ∧
    settleDelayMs latency 0x49 = 500 ∧
    settleDelayMs latency 0x4E = 500 ∧
    settleDelayMs latency 0x03 = 0 ∧
    settleDelayMs latency 0x0D = 0 ∧
    settleDelayMs latency 0x0F = 0 ∧
    settleDelayMs latency 0x12 = 0 ∧
    settleDelayMs latency 0x13 = 0 ∧
    settleDelayMs latency 0x16 = 0 ∧
    settleDelayMs latency 0x15 = latency ∧
    (∀ cmd, cmd ≠ 0x09 → cmd ≠ 0x0C → cmd ≠ 0x47 → cmd ≠ 0x48 → cmd ≠ 0x49 → cmd ≠ 0x4E →
      cmd ≠ 0x03 → cmd ≠ 0x0D → cmd ≠ 0x0F → cmd ≠ 0x12 → cmd ≠ 0x13 → cmd ≠ 0x16 →
      settleDelayMs latency cmd = latency) := by
  refine ⟨by simp [settleDelayMs], by simp [settleDelayMs], by simp [settleDelayMs],
    by simp [settleDelayMs], by simp [settleDelayMs], by simp [settleDelayMs],
    by simp [settleDelayMs], by simp [settleDelayMs], by simp [settleDelayMs],
    by simp [settleDelayMs], by simp [settleDelayMs], by simp [settleDelayMs],
    by simp [settleDelayMs], ?_⟩
  intro cmd h1 h2 h3 h4 h5 h6 h7 h8 h9 h10 h11 h12
  simp [settleDelayMs, h1, h2, h3, h4, h5, h6, h7, h8, h9, h10, h11, h12]

/-- C2 (witness): some other command (0x44, the EQ query) gets the default
latency, applied at latency 100. -/
theorem c2_settle_delay_witness : settleDelayMs 100 0x44 = 100 := by
  exact (c2_settle_delay_policy 100).2.2.2.2.2.2.2.2.2.2.2.2.2 0x44
    (by decide) (by decide) (by decide) (by decide) (by decide) (by decide)
    (by decide) (by decide) (by decide) (by decide) (by decide) (by decide)

/-- C4: decoding returns nothing exactly when the buffer is not 10 bytes
long or one of the start/version/length/stop markers (bytes 0, 1, 2, 9)
is wrong; on success it returns the command echo (byte 3) and the
big-endian 16-bit word from bytes 5 and 6; and bytes 4 (feedback) and
7, 8 (checksum) are never examined. -/
theorem c4_decode_spec (buf : List Nat) :
    (decode10 buf = none ↔
      (buf.length ≠ 10 ∨ buf.getD 0 0 ≠ 0x7E ∨ buf.getD 1 0 ≠ 0xFF ∨
        buf.getD 2 0 ≠ 0x06 ∨ buf.getD 9 0 ≠ 0xEF)) ∧
    (∀ c d, decode10 buf = some (c, d) →
      c = buf.getD 3 0 ∧ d = buf.getD 5 0 * 256 + buf.getD 6 0) ∧
    (∀ v4 v7 v8, decode10 (((buf.set 4 v4).set 7 v7).set 8 v8) = decode10 buf) := by
  refine ⟨?_, ?_, ?_⟩
  · unfold decode10
    split_ifs with h1 h2 h3 h4 h5 <;> simp_all
  · intro c d
    unfold decode10
    split_ifs with h1 h2 h3 h4 h5 <;> simp_all
  · intro v4 v7 v8
    have e0 : (((buf.set 4 v4).set 7 v7).set 8 v8).getD 0 0 = buf.getD 0 0 := by
      rw [getD_set_of_ne (by decide), getD_set_of_ne (by decide), getD_set_of_ne (by decide)]
    have e1 : (((buf.set 4 v4).set 7 v7).set 8 v8).getD 1 0 = buf.getD 1 0 := by
      rw [getD_set_of_ne (by decide), getD_set_of_ne (by decide), getD_set_of_ne (by decide)]
    have e2 : (((buf.set 4 v4).set 7 v7).set 8 v8).getD 2 0 = buf.getD 2 0 := by
      rw [getD_set_of_ne (by decide), getD_set_of_ne (by decide), getD_set_of_ne (by decide)]
    have e3 : (((buf.set 4 v4).set 7 v7).set 8 v8).getD 3 0 = buf.getD 3 0 := by
      rw [getD_set_of_ne (by decide), getD_set_of_ne (by decide), getD_set_of_ne (by decide)]
    have e5 : (((buf.set 4 v4).set 7 v7).set 8 v8).getD 5 0 = buf.getD 5 0 := by
      rw [getD_set_of_ne (by decide), getD_set_of_ne (by decide), getD_set_of_ne (by decide)]
    have e6 : (((buf.set 4 v4).set 7 v7).set 8 v8).getD 6 0 = buf.getD 6 0 := by
      rw [getD_set_of_ne (by decide), getD_set_of_ne (by decide), getD_set_of_ne (by decide)]
    have e9 : (((buf.set 4 v4).set 7 v7).set 8 v8).getD 9 0 = buf.getD 9 0 := by
      rw [getD_set_of_ne (by decide), getD_set_of_ne (by decide), getD_set_of_ne (by decide)]
    simp only [decode10, List.length_set, e0, e1, e2, e3, e5, e6, e9]

/-- C4 (witness): the success clause applied to a concrete valid frame. -/
theorem c4_decode_witness :
    (0x42 : Nat) = [0x7E, 0xFF, 0x06, 0x42, 0x00, 0x02, 0x00, 0x00, 0x00, 0xEF].getD 3 0 ∧
    (512 : Nat) = [0x7E, 0xFF, 0x06, 0x42, 0x00, 0x02, 0x00, 0x00, 0x00, 0xEF].getD 5 0 * 256 +
      [0x7E, 0xFF, 0x06, 0x42, 0x00, 0x02, 0x00, 0x00, 0x00, 0xEF].getD 6 0 := by
  exact (c4_decode_spec [0x7E, 0xFF, 0x06, 0x42, 0x00, 0x02, 0x00, 0x00, 0x00, 0xEF]).2.1
    0x42 512 (by decide)

/-- C5: encode/decode round-trip — for every command and data-byte pair
in range, building the 8-byte command frame and feeding the decoder the
corresponding synthetic 10-byte response (same markers, command and data
bytes, any checksum bytes) yields the command and `dataH * 256 + dataL`. -/
theorem c5_roundtrip (cmd dL dH ck1 ck2 : Nat)
    (hc : cmd ≤ 255) (hl : dL ≤ 255) (hh : dH ≤ 255) :
    decode10 (responseBytesFrom (writeFrame cmd dL dH) ck1 ck2) =
      some (cmd, dH * 256 + dL) := by
  rfl

/-- C5 (witness): the round-trip at command 0x03 with data bytes (5, 2). -/
theorem c5_roundtrip_witness :
    decode10 (responseBytesFrom (writeFrame 0x03 5 2) 0 0) = some (0x03, 517) := by
  exact c5_roundtrip 0x03 5 2 0 0 (by decide) (by decide) (by decide)

/-- C6: `play_advert` fails with the invalid-argument error, and hence
performs no transport write, exactly when the track is outside [1, 9999];
for an in-range track it writes command 0x13 with data bytes
`track % 256` (low) and `track // 256` (high); in particular track 1
encodes (1, 0) and track 9999 encodes (0x0F, 0x27). -/
theorem c6_play_advert_spec (st : DFPlayer) (u : Uart) (track : Int) :
    ((∃ e, play_advert st u track = Except.error e) ↔ (track < 1 ∨ 9999 < track)) ∧
    (1 ≤ track → track ≤ 9999 →
      play_advert st u track =
        Except.ok (writeData st u 0x13 (Int.emod track 256).toNat (Int.ediv track 256).toNat)) ∧
    play_advert st u 1 = Except.ok (writeData st u 0x13 1 0) ∧
    play_advert st u 9999 = Except.ok (writeData st u 0x13 15 39) := by
  refine ⟨?_, ?_, by rfl, by rfl⟩
  · unfold play_advert
    split_ifs with h
    · constructor
      · rintro ⟨e, he⟩
        simp at he
      · intro hcon
        exact ((by omega : False)).elim
    · constructor
      · intro _
        omega
      · intro _
        exact ⟨"Track must be between 1 and 9999", rfl⟩
  · intro h1 h2
    unfold play_advert
    rw [if_pos ⟨h1, h2⟩]

/-- C6 (witness): the in-range clause applied at track 5. -/
theorem c6_play_advert_witness :
    play_advert ⟨2, 100⟩ ⟨[], [], []⟩ 5 =
      Except.ok (writeData ⟨2, 100⟩ ⟨[], [], []⟩ 0x13 (Int.emod 5 256).toNat
        (Int.ediv 5 256).toNat) := by
  exact (c6_play_advert_spec ⟨2, 100⟩ ⟨[], [], []⟩ 5).2.1 (by decide) (by decide)

/-- C7: every status/introspection query returns the decoded data only
when the drained frame's echoed command equals the command the query just
sent; when nothing valid is drained, or the echo differs, it returns the
absent (`none`) or zero result instead of misattributing the data. -/
theorem c7_query_echo_match (st : DFPlayer) (u : Uart) (f c d : Nat) :
    (drainLatest u.rx = none →
      (get_status st u).1 = none ∧ (get_mode st u).1 = none ∧
      (get_version st u).1 = none ∧ (current_file st u).1 = none ∧
      (get_volume st u).1 = 0 ∧ (get_eq st u).1 = 0 ∧
      (num_files st u (some f) none).1 = 0 ∧
      (num_files st u none (some 1)).1 = 0 ∧
      (num_files st u none (some 2)).1 = 0 ∧
      (num_files st u none (some 5)).1 = 0) ∧
    (drainLatest u.rx = some (c, d) →
      ((get_status st u).1 = if c = 0x42 then some d else none) ∧
      ((get_mode st u).1 = if c = 0x45 then some d else none) ∧
      ((get_version st u).1 = if c = 0x46 then some d else none) ∧
      ((current_file st u).1 = if c = 0x4C then some d else none) ∧
      ((get_volume st u).1 = if c = 0x43 then pyVolPct d else 0) ∧
      ((get_eq st u).1 = if c = 0x44 then d else 0) ∧
      ((num_files st u (some f) none).1 = if c = 0x4E then d else 0) ∧
      ((num_files st u none (some 1)).1 = if c = 0x47 then d else 0) ∧
      ((num_files st u none (some 2)).1 = if c = 0x48 then d else 0) ∧
      ((num_files st u none (some 5)).1 = if c = 0x49 then d else 0)) := by
  constructor
  · intro h
    refine ⟨?_, ?_, ?_, ?_, ?_, ?_, ?_, ?_, ?_, ?_⟩ <;>
      simp [get_status_fst, get_mode_fst, get_version_fst, current_file_fst,
        get_volume_fst, get_eq_fst, num_files_folder_fst, num_files_usb_fst,
        num_files_sd_fst, num_files_flash_fst, h]
  · intro h
    refine ⟨?_, ?_, ?_, ?_, ?_, ?_, ?_, ?_, ?_, ?_⟩ <;>
      simp [get_status_fst, get_mode_fst, get_version_fst, current_file_fst,
        get_volume_fst, get_eq_fst, num_files_folder_fst, num_files_usb_fst,
        num_files_sd_fst, num_files_flash_fst, h]

/-- C7 (witness): a drained frame echoing 0x42 is attributed to the
status query and to no other query. -/
theorem c7_query_echo_witness :
    (get_status ⟨2, 100⟩ ⟨[0x7E, 0xFF, 0x06, 0x42, 0x00, 0x02, 0x00, 0x00, 0x00, 0xEF], [], []⟩).1 =
      some 512 ∧
    (get_volume ⟨2, 100⟩ ⟨[0x7E, 0xFF, 0x06, 0x42, 0x00, 0x02, 0x00, 0x00, 0x00, 0xEF], [], []⟩).1 =
      0 := by
  have h := (c7_query_echo_match ⟨2, 100⟩
    ⟨[0x7E, 0xFF, 0x06, 0x42, 0x00, 0x02, 0x00, 0x00, 0x00, 0xEF], [], []⟩ 1 0x42 512).2
    (by decide)
  exact ⟨by simpa using h.1, by simpa using h.2.2.2.2.1⟩

/-- C8 (counterexample): `get_volume` does not compute
`floor (r * 100 / 30)` for every raw reply value: at raw value 69 the
float expression `int(r / 30 * 100)` yields 229, while the exact floor
is 230. -/
theorem c8_get_volume_counterexample :
    (get_volume ⟨2, 100⟩
        ⟨[0x7E, 0xFF, 0x06, 0x43, 0x00, 0x00, 0x45, 0x00, 0x00, 0xEF], [], []⟩).1 = 229 ∧
    (69 * 100 / 30 : Nat) = 230 := by
  decide

/-- C8 (amended): `set_volume` encodes `floor (percent * 30 / 100)` for
every clamped percent in [0, 100] (the float division is exact there);
`get_volume` computes the float truncation `int(r / 30 * 100)`, which
equals `floor (r * 100 / 30)` for every raw value below 69 — covering the
device's raw volume range 0–30, with raw 15 mapping to 50 — though not
for all 16-bit raw values. -/
theorem c8_volume_scaling :
    (∀ p : Nat, p < 101 → pyVolDev p = p * 30 / 100) ∧
    (∀ r : Nat, r < 69 → pyVolPct r = r * 100 / 30) ∧
    pyVolPct 0 = 0 ∧ pyVolPct 1 = 3 ∧ pyVolPct 15 = 50 ∧
    pyVolPct 29 = 96 ∧ pyVolPct 30 = 100 ∧
    (∀ (st : DFPlayer) (u : Uart) (p : Int),
      set_volume st u p = writeData st u 0x06 (pyVolDev (max 0 (min 100 p)).toNat) 0) := by
  refine ⟨by decide, by decide, by decide, by decide, by decide, by decide, by decide, ?_⟩
  intro st u p
  rfl

/-- C8 (witness): the encode half at percent 50, via the amended theorem. -/
theorem c8_volume_scaling_witness : pyVolDev 50 = 50 * 30 / 100 := by
  exact c8_volume_scaling.1 50 (by decide)

/-- C9: out-of-range inputs are silently normalized, never an error —
`set_volume` clamps the percent to [0, 100] before scaling, so any
percent at least 100 encodes like 100 and any at most 0 encodes like 0;
`set_eq` resets any preset outside 0–5 to 0, so `set_eq 9` writes a frame
identical to `set_eq 0`. -/
theorem c9_silent_normalization (st : DFPlayer) (u : Uart) (p e : Int) :
    (100 ≤ p → set_volume st u p = set_volume st u 100) ∧
    (p ≤ 0 → set_volume st u p = set_volume st u 0) ∧
    ((e < 0 ∨ 5 < e) → set_eq st u e = set_eq st u 0) ∧
    set_eq st u 9 = set_eq st u 0 := by
  refine ⟨?_, ?_, ?_, by rfl⟩
  · intro h
    unfold set_volume
    have hc : max 0 (min 100 p) = max 0 (min 100 (100 : Int)) := by omega
    rw [hc]
  · intro h
    unfold set_volume
    have hc : max 0 (min 100 p) = max 0 (min 100 (0 : Int)) := by omega
    rw [hc]
  · intro h
    unfold set_eq
    rw [if_pos h, if_neg (by omega)]
    rfl

/-- C9 (witness): percent 150 encodes like percent 100. -/
theorem c9_silent_normalization_witness :
    set_volume ⟨2, 100⟩ ⟨[], [], []⟩ 150 = set_volume ⟨2, 100⟩ ⟨[], [], []⟩ 100 := by
  exact (c9_silent_normalization ⟨2, 100⟩ ⟨[], [], []⟩ 150 0).1 (by decide)

/-- C10: `num_files` without a folder maps the media source — the
argument, or the stored one when none (or a falsy 0) is given — to its
dedicated query command (USB-disk 1 ↦ 0x47, SD 2 ↦ 0x48, flash 5 ↦ 0x49)
and writes exactly that query frame; for any media source with no such
command (AUX 3, sleep 4, or any other code) it returns 0 immediately with
the transport completely unchanged. -/
theorem c10_num_files_media_map (st : DFPlayer) (u : Uart) (lat m : Nat) :
    ((num_files ⟨1, lat⟩ u none none).2.tx = u.tx ++ [writeFrame 0x47 0 0]) ∧
    ((num_files ⟨2, lat⟩ u none none).2.tx = u.tx ++ [writeFrame 0x48 0 0]) ∧
    ((num_files ⟨5, lat⟩ u none none).2.tx = u.tx ++ [writeFrame 0x49 0 0]) ∧
    ((num_files st u none (some 1)).2.tx = u.tx ++ [writeFrame 0x47 0 0]) ∧
    ((num_files st u none (some 2)).2.tx = u.tx ++ [writeFrame 0x48 0 0]) ∧
    ((num_files st u none (some 5)).2.tx = u.tx ++ [writeFrame 0x49 0 0]) ∧
    (m ≠ 0 → m ≠ 1 → m ≠ 2 → m ≠ 5 → num_files st u none (some m) = (0, u)) ∧
    (st.media ≠ 1 → st.media ≠ 2 → st.media ≠ 5 → num_files st u none none = (0, u)) := by
  refine ⟨?_, ?_, ?_, ?_, ?_, ?_, ?_, ?_⟩
  · show (readResponse (writeData ⟨1, lat⟩ u 0x47 0 0)).2.tx = _
    rw [readResponse_tx]
    rfl
  · show (readResponse (writeData ⟨2, lat⟩ u 0x48 0 0)).2.tx = _
    rw [readResponse_tx]
    rfl
  · show (readResponse (writeData ⟨5, lat⟩ u 0x49 0 0)).2.tx = _
    rw [readResponse_tx]
    rfl
  · show (readResponse (writeData st u 0x47 0 0)).2.tx = _
    rw [readResponse_tx]
    rfl
  · show (readResponse (writeData st u 0x48 0 0)).2.tx = _
    rw [readResponse_tx]
    rfl
  · show (readResponse (writeData st u 0x49 0 0)).2.tx = _
    rw [readResponse_tx]
    rfl
  · intro h0 h1 h2 h5
    simp [num_files, h0, h1, h2, h5]
  · intro h1 h2 h5
    simp [num_files, h1, h2, h5]

/-- C3 (counterexample): construction can fail even though the status
query yielded a valid response frame — a frame echoing 0x42 with data
value 0 is drained and decoded, yet `__init__` raises, because Python's
`not self.get_status()` also treats the integer status 0 as falsy. -/
theorem c3_init_counterexample :
    drainLatest [0x7E, 0xFF, 0x06, 0x42, 0x00, 0x00, 0x00, 0x00, 0x00, 0xEF] = some (0x42, 0) ∧
    (∃ e, (initDriver 2 50 0 100
        ⟨[0x7E, 0xFF, 0x06, 0x42, 0x00, 0x00, 0x00, 0x00, 0x00, 0xEF], [], []⟩).1 =
      Except.error e) := by
  exact ⟨by decide, ⟨"DFPlayer could not be initialized.", by rfl⟩⟩

/-- C3 (amended): construction first sets the media source and then
issues the status query; it fails exactly when the status query's result
is falsy — no valid 0x42-echoed frame, or such a frame whose data value
is 0 — writing only the set-media and status frames in that case; on
success it returns the driver state and additionally applies the initial
volume and EQ, in that order. -/
theorem c3_init_spec (media : Nat) (vol eqp : Int) (lat : Nat) (u : Uart) :
    ((∃ e, (initDriver media vol eqp lat u).1 = Except.error e) ↔
      ((get_status ⟨media, lat⟩ u).1 = none ∨ (get_status ⟨media, lat⟩ u).1 = some 0)) ∧
    (∀ e, (initDriver media vol eqp lat u).1 = Except.error e →
      (initDriver media vol eqp lat u).2.tx =
        u.tx ++ [writeFrame 0x09 media 0, writeFrame 0x42 0 0]) ∧
    (∀ st, (initDriver media vol eqp lat u).1 = Except.ok st →
      st = ⟨media, lat⟩ ∧
      (initDriver media vol eqp lat u).2.tx =
        u.tx ++ [writeFrame 0x09 media 0, writeFrame 0x42 0 0,
          writeFrame 0x06 (pyVolDev (max 0 (min 100 vol)).toNat) 0,
          writeFrame 0x07 (if eqp < 0 ∨ 5 < eqp then 0 else eqp.toNat) 0]) := by
  have hscrut : (get_status (set_media ⟨0, lat⟩ u media).1 (set_media ⟨0, lat⟩ u media).2).1 =
      (get_status (⟨media, lat⟩ : DFPlayer) u).1 := by
    rw [get_status_fst, get_status_fst]
    simp [set_media, writeData]
  refine ⟨?_, ?_, ?_⟩
  · rcases hD : (get_status (⟨media, lat⟩ : DFPlayer) u).1 with _ | v
    · rw [hD] at hscrut
      simp only [initDriver, hscrut]
      simp
    · rw [hD] at hscrut
      by_cases hv : v = 0
      · subst hv
        simp only [initDriver, hscrut]
        simp
      · simp only [initDriver, hscrut]
        simp [hv]
  · intro e he
    rcases hD : (get_status (⟨media, lat⟩ : DFPlayer) u).1 with _ | v
    · rw [hD] at hscrut
      simp only [initDriver, hscrut]
      show (get_status (set_media (⟨0, lat⟩ : DFPlayer) u media).1
          (set_media (⟨0, lat⟩ : DFPlayer) u media).2).2.tx = _
      rw [get_status_tx]
      simp [set_media, writeData]
    · rw [hD] at hscrut
      by_cases hv : v = 0
      · subst hv
        simp only [initDriver, hscrut]
        show (get_status (set_media (⟨0, lat⟩ : DFPlayer) u media).1
            (set_media (⟨0, lat⟩ : DFPlayer) u media).2).2.tx = _
        rw [get_status_tx]
        simp [set_media, writeData]
      · exfalso
        simp only [initDriver, hscrut] at he
        simp [hv] at he
  · intro st hok
    rcases hD : (get_status (⟨media, lat⟩ : DFPlayer) u).1 with _ | v
    · exfalso
      rw [hD] at hscrut
      simp only [initDriver, hscrut] at hok
      simp at hok
    · rw [hD] at hscrut
      by_cases hv : v = 0
      · exfalso
        subst hv
        simp only [initDriver, hscrut] at hok
        simp at hok
      · simp only [initDriver, hscrut] at hok ⊢
        simp only [if_neg hv] at hok ⊢
        constructor
        · have : (set_media (⟨0, lat⟩ : DFPlayer) u media).1 = (⟨media, lat⟩ : DFPlayer) := rfl
          rw [this] at hok
          exact (Except.ok.injEq _ _).mp hok.symm ▸ rfl
        · show (set_eq _ (set_volume _ _ vol) eqp).tx = _
          simp only [set_eq, set_volume, writeData]
          rw [get_status_tx]
          simp [set_media, writeData]

/-- C3 (witness): the success clause at a transport answering the status
query with 0x0200 (stopped): construction succeeds and writes the
set-media, status, volume and EQ frames in order. -/
theorem c3_init_witness :
    (initDriver 2 50 0 100
        ⟨[0x7E, 0xFF, 0x06, 0x42, 0x00, 0x02, 0x00, 0x00, 0x00, 0xEF], [], []⟩).1 =
      Except.ok ⟨2, 100⟩ ∧
    (initDriver 2 50 0 100
        ⟨[0x7E, 0xFF, 0x06, 0x42, 0x00, 0x02, 0x00, 0x00, 0x00, 0xEF], [], []⟩).2.tx =
      [writeFrame 0x09 2 0, writeFrame 0x42 0 0, writeFrame 0x06 15 0, writeFrame 0x07 0 0] := by
  have h := (c3_init_spec 2 50 0 100
    ⟨[0x7E, 0xFF, 0x06, 0x42, 0x00, 0x02, 0x00, 0x00, 0x00, 0xEF], [], []⟩).2.2 ⟨2, 100⟩ (by rfl)
  refine ⟨by rfl, ?_⟩
  rw [h.2]
  rfl

/-- C10 (witness): AUX (media 3) returns 0 with the transport unchanged. -/
theorem c10_num_files_media_witness :
    num_files ⟨2, 100⟩ ⟨[], [], []⟩ none (some 3) = (0, ⟨[], [], []⟩) := by
  exact (c10_num_files_media_map ⟨2, 100⟩ ⟨[], [], []⟩ 100 3).2.2.2.2.2.2.1
    (by decide) (by decide) (by decide) (by decide)

end DFPlayerModel
